import Mathlib

set_option maxRecDepth 100000

/-! Verification development for the PostgreSQL MCP wrapper server (src/server.py).
The file embeds the protocol dispatch layer of the server: JSON envelopes,
the query executor wrapper, the tool dispatch, and the two transports
(streamed Server-Sent-Events and unary JSON). The database driver is an
opaque oracle mapping each SQL string to an outcome. -/

/-- JSON values as decoded by json.loads: Python None, bool, int, str, list, dict.
Decoded objects keep their key-value pairs in order and have unique keys. -/
inductive Json where
  | null
  | bool (b : Bool)
  | num (n : Int)
  | str (s : String)
  | arr (xs : List Json)
  | obj (fields : List (String × Json))

/-- Whitespace characters stripped by the Python str.strip method (ASCII range). -/
def isPySpace (c : Char) : Bool :=
  c == ' ' || c == '\t' || c == '\n' || c == '\x0d' || c == '\x0b' || c == '\x0c'

/-- ASCII uppercasing of one character, as the Python str.upper method does on the
ASCII letters that occur in SQL keywords. -/
def pyCharUpper (c : Char) : Char :=
  if 'a' ≤ c && c ≤ 'z' then Char.ofNat (c.toNat - 32) else c

/-- Embeds the Python expression query.strip(): remove leading and trailing whitespace. -/
def pyStrip (s : String) : String :=
  String.mk (((s.data.dropWhile isPySpace).reverse.dropWhile isPySpace).reverse)

/-- Embeds the Python expression s.upper(). -/
def pyUpper (s : String) : String :=
  String.mk (s.data.map pyCharUpper)

/-- Embeds the Python expression s.startswith(pre) for one prefix candidate. -/
def pyStartsWith (s pre : String) : Bool :=
  pre.data.isPrefixOf s.data

mutual
/-- Models the Python repr() rendering of a JSON-decoded value, used by str() on
containers. String escaping inside repr is not modelled; no theorem below
depends on the container branches. -/
def pyRepr : Json → String
  | .null => "None"
  | .bool true => "True"
  | .bool false => "False"
  | .num n => toString n
  | .str s => "\x27" ++ s ++ "\x27"
  | .arr xs => "[" ++ pyReprItems xs ++ "]"
  | .obj fs => "\x7b" ++ pyReprFields fs ++ "\x7d"

/-- Comma-separated repr of list items. -/
def pyReprItems : List Json → String
  | [] => ""
  | [x] => pyRepr x
  | x :: xs => pyRepr x ++ ", " ++ pyReprItems xs

/-- Comma-separated repr of dict fields. -/
def pyReprFields : List (String × Json) → String
  | [] => ""
  | [(k, v)] => "\x27" ++ k ++ "\x27: " ++ pyRepr v
  | (k, v) :: fs => "\x27" ++ k ++ "\x27: " ++ pyRepr v ++ ", " ++ pyReprFields fs
end

/-- Models the Python str() conversion applied when a JSON-decoded value is
interpolated into an f-string. On strings it is the identity. -/
def pyStr : Json → String
  | .str s => s
  | j => pyRepr j

/-- Name of the Python type of a decoded JSON value, as it appears in
AttributeError messages. -/
def Json.pyTypeName : Json → String
  | .null => "NoneType"
  | .bool _ => "bool"
  | .num _ => "int"
  | .str _ => "str"
  | .arr _ => "list"
  | .obj _ => "dict"

/-- Lookup in a decoded JSON object with a default, as dict.get(key, default). -/
def dictGet (fields : List (String × Json)) (key : String) (dflt : Json) : Json :=
  match fields.find? (fun p => p.1 == key) with
  | some p => p.2
  | none => dflt

/-- Embeds the Python expression value.get(key, default): succeeds on a dict and
raises AttributeError on every other decoded value. -/
def Json.getOr (j : Json) (key : String) (dflt : Json) : Except String Json :=
  match j with
  | .obj fields => Except.ok (dictGet fields key dflt)
  | other =>
      Except.error ("\x27" ++ other.pyTypeName ++ "\x27 object has no attribute \x27get\x27")

/-- Embeds a Python equality test between a decoded JSON value and a string
literal, as in the method and tool-name comparisons of the server. -/
def Json.isStr (j : Json) (s : String) : Bool :=
  match j with
  | .str t => t == s
  | _ => false

/-- Outcome of running one SQL statement through psycopg2, as seen by
execute_query: either the cursor state after a successful execute (column
names of cursor.description, fetched rows, cursor.rowcount), or an exception
raised while connecting (before a connection exists), or an exception raised
after connecting. -/
inductive DbOutcome where
  | ok (columns : Option (List String)) (rows : List (List Json)) (rowcount : Int)
  | connectFail (msg : String)
  | execFail (msg : String)

/-- Transaction action taken by execute_query on the connection before closing it. -/
inductive TxAction where
  | commit
  | rollback
  | skip
deriving DecidableEq

/-- Result dictionary built by execute_query and by the unknown-tool branch of
the tool dispatch. Optional fields model keys absent from the Python dict. -/
structure ToolResult where
  success : Bool
  data : Option (List (List (String × Json))) := none
  row_count : Option Nat := none
  message : Option String := none
  affected_rows : Option Int := none
  error : Option String := none

/-- Embeds line 108 of server.py: the statement is treated as SELECT-like when
its stripped, uppercased text starts with one of the four keyword strings. -/
def isReadLike (query : String) : Bool :=
  let u := pyUpper (pyStrip query)
  pyStartsWith u "SELECT" || pyStartsWith u "WITH" ||
    pyStartsWith u "SHOW" || pyStartsWith u "DESCRIBE"

/-- Embeds execute_query (server.py lines 98-131) over an opaque database
oracle. A read-like success fetches all rows and zips each row with the
column names; a write-like success commits and reports cursor.rowcount; any
exception is absorbed into a failure result, with a rollback when a
connection had been opened. The connection is closed on every path. -/
def execute_query (db : String → DbOutcome) (query : String) : ToolResult × TxAction :=
  match db query with
  | .connectFail msg => ({ success := false, error := some msg }, .skip)
  | .execFail msg => ({ success := false, error := some msg }, .rollback)
  | .ok columns rows rowcount =>
      if isReadLike query then
        let cols := columns.getD []
        let result := rows.map (fun row => cols.zip row)
        ({ success := true, data := some result, row_count := some result.length }, .skip)
      else
        ({ success := true,
           message := some ("Query executed successfully. Rows affected: " ++ toString rowcount),
           affected_rows := some rowcount }, .commit)

/-- SQL string issued by the postgres_list_tables tool (identical on both transports). -/
def listTablesQuery : String :=
  "SELECT table_name FROM information_schema.tables WHERE table_schema=\x27public\x27 ORDER BY table_name"

/-- Leading part, up to the interpolated table name, of the triple-quoted SQL
template of the streamed postgres_describe_table branch (server.py lines 266-271). -/
def describePrefixSSE : String :=
  "\n                                    SELECT column_name, data_type, is_nullable, column_default\n                                    FROM information_schema.columns\n                                    WHERE table_name = \x27"

/-- Trailing part, after the interpolated table name, of the streamed
postgres_describe_table SQL template. -/
def describeSuffixSSE : String :=
  "\x27\n                                    ORDER BY ordinal_position\n                                "

/-- SQL string issued by postgres_describe_table on the streamed transport. -/
def describeTableQuerySSE (table_name : String) : String :=
  describePrefixSSE ++ table_name ++ describeSuffixSSE

/-- Leading part, up to the interpolated table name, of the unary
postgres_describe_table SQL template (server.py line 420). -/
def describePrefixHTTP : String :=
  "SELECT column_name, data_type, is_nullable FROM information_schema.columns WHERE table_name = \x27"

/-- Trailing part, after the interpolated table name, of the unary
postgres_describe_table SQL template. -/
def describeSuffixHTTP : String :=
  "\x27 ORDER BY ordinal_position"

/-- SQL string issued by postgres_describe_table on the unary transport. -/
def describeTableQueryHTTP (table_name : String) : String :=
  describePrefixHTTP ++ table_name ++ describeSuffixHTTP

/-- The fixed MCP_TOOLS catalog (server.py lines 50-88), as decoded JSON. -/
def MCP_TOOLS : List Json := [
  .obj [
    ("name", .str "postgres_query"),
    ("description", .str "Execute a SQL query on the PostgreSQL database. Use this to SELECT, INSERT, UPDATE, or DELETE data."),
    ("inputSchema", .obj [
      ("type", .str "object"),
      ("properties", .obj [
        ("query", .obj [
          ("type", .str "string"),
          ("description", .str "The SQL query to execute (e.g., SELECT * FROM employees WHERE department=\x27Engineering\x27)")])]),
      ("required", .arr [.str "query"])])],
  .obj [
    ("name", .str "postgres_list_tables"),
    ("description", .str "List all tables in the current PostgreSQL database"),
    ("inputSchema", .obj [
      ("type", .str "object"),
      ("properties", .obj []),
      ("required", .arr [])])],
  .obj [
    ("name", .str "postgres_describe_table"),
    ("description", .str "Get the schema/structure of a specific table including column names and types"),
    ("inputSchema", .obj [
      ("type", .str "object"),
      ("properties", .obj [
        ("table_name", .obj [
          ("type", .str "string"),
          ("description", .str "Name of the table to describe")])]),
      ("required", .arr [.str "table_name"])])]]

/-- Value of the "name" field of a catalog entry, when present and a string. -/
def Json.getStrField (j : Json) (key : String) : Option String :=
  match j with
  | .obj fs =>
      match dictGet fs key Json.null with
      | .str s => some s
      | _ => none
  | _ => none

/-- Names of the cataloged tools, in declaration order. -/
def catalogToolNames : List String :=
  MCP_TOOLS.filterMap (fun t => t.getStrField "name")

/-- JSON-RPC error object carried by a failure response. -/
structure RpcError where
  code : Int
  message : String
deriving DecidableEq

/-- Body of a success response. A tools/call success carries a content list with
one text entry whose text is json.dumps(result, default=str, indent=2); the
embedding keeps that ToolResult structured rather than serialized. -/
inductive ResultBody where
  | json (j : Json)
  | toolContent (tr : ToolResult)

/-- Outbound JSON-RPC response. The constant jsonrpc "2.0" field, present on
every response the server builds, is left implicit. -/
structure RpcResponse where
  id? : Option Json
  result? : Option ResultBody
  error? : Option RpcError

/-- Success envelope with the given id and result body. -/
def rpcSuccess (msg_id : Json) (body : ResultBody) : RpcResponse :=
  { id? := some msg_id, result? := some body, error? := none }

/-- Failure envelope with an optional id and a code/message error object. -/
def rpcFailure (theId : Option Json) (code : Int) (message : String) : RpcResponse :=
  { id? := theId, result? := none, error? := some { code := code, message := message } }

/-- Result content of the initialization handshake on the streamed transport
(server.py lines 203-216), also emitted as the bare-GET capabilities frame. -/
def sseInitResult : Json :=
  .obj [
    ("protocolVersion", .str "2024-11-05"),
    ("capabilities", .obj [("tools", .obj [])]),
    ("serverInfo", .obj [("name", .str "PostgreSQL MCP Server"), ("version", .str "1.0.0")])]

/-- Result content of the initialization handshake on the unary transport
(server.py lines 372-387), which also declares resources and prompts capabilities. -/
def httpInitResult : Json :=
  .obj [
    ("protocolVersion", .str "2024-11-05"),
    ("capabilities", .obj [("tools", .obj []), ("resources", .obj []), ("prompts", .obj [])]),
    ("serverInfo", .obj [("name", .str "PostgreSQL MCP Server"), ("version", .str "1.0.0")])]

/-- Result content of tools/list. -/
def toolsListResult : Json := .obj [("tools", .arr MCP_TOOLS)]

/-- Result content of resources/list: fixed empty. -/
def resourcesListResult : Json := .obj [("resources", .arr [])]

/-- Result content of prompts/list: fixed empty. -/
def promptsListResult : Json := .obj [("prompts", .arr [])]

/-- Capabilities frame sent for a bare GET request: a success body with no id field. -/
def capabilitiesResponse : RpcResponse :=
  { id? := none, result? := some (.json sseInitResult), error? := none }

/-- Embeds the tool execution chain shared by both transports (server.py lines
260-279 and 415-426), parameterized by the transport-specific
describe-table SQL template. An AttributeError raised by arguments.get on a
non-dict propagates as an Except error; every other path yields a ToolResult. -/
def run_tool (describeQuery : String → String) (db : String → DbOutcome)
    (tool_name : Json) (arguments : Json) : Except String ToolResult :=
  if tool_name.isStr "postgres_list_tables" then
    Except.ok (execute_query db listTablesQuery).fst
  else if tool_name.isStr "postgres_describe_table" then
    match arguments.getOr "table_name" (Json.str "") with
    | .error e => .error e
    | .ok t => Except.ok (execute_query db (describeQuery (pyStr t))).fst
  else if tool_name.isStr "postgres_query" then
    match arguments.getOr "query" (Json.str "") with
    | .error e => .error e
    | .ok q => Except.ok (execute_query db (pyStr q)).fst
  else
    Except.ok { success := false, error := some ("Unknown tool: " ++ pyStr tool_name) }

/-- Outcome of reading and JSON-decoding the request body: either a decode
failure with the exception message, or the decoded value. -/
inductive BodyParse where
  | invalid (msg : String)
  | parsed (body : Json)

/-- Embeds the method dispatch of the streamed POST branch (server.py lines
192-306): extract method, params and id with defaults, route the five known
methods, and answer anything else with a -32601 error. An AttributeError
from a .get call on a non-dict propagates as an Except error and is caught
by the surrounding generator. -/
def sse_dispatch (db : String → DbOutcome) (body : Json) : Except String RpcResponse :=
  match body with
  | .obj fields =>
      let methodJ := dictGet fields "method" (Json.str "")
      let paramsJ := dictGet fields "params" (Json.obj [])
      let msg_id := dictGet fields "id" (Json.num 1)
      if methodJ.isStr "initialize" then
        Except.ok (rpcSuccess msg_id (.json sseInitResult))
      else if methodJ.isStr "tools/list" then
        Except.ok (rpcSuccess msg_id (.json toolsListResult))
      else if methodJ.isStr "resources/list" then
        Except.ok (rpcSuccess msg_id (.json resourcesListResult))
      else if methodJ.isStr "prompts/list" then
        Except.ok (rpcSuccess msg_id (.json promptsListResult))
      else if methodJ.isStr "tools/call" then
        match paramsJ.getOr "name" (Json.str "") with
        | .error e => .error e
        | .ok tool_nameJ =>
          match paramsJ.getOr "arguments" (Json.obj []) with
          | .error e => .error e
          | .ok argumentsJ =>
            match run_tool describeTableQuerySSE db tool_nameJ argumentsJ with
            | .error e => .error e
            | .ok tr => Except.ok (rpcSuccess msg_id (.toolContent tr))
      else
        Except.ok (rpcFailure (some msg_id) (-32601) ("Method not found: " ++ pyStr methodJ))
  | other =>
      Except.error ("\x27" ++ other.pyTypeName ++ "\x27 object has no attribute \x27get\x27")

/-- One event of the streamed response: a data frame carrying a response
envelope, a cooperative delay in seconds, or a ": ping" comment frame. -/
inductive SseEvent where
  | data (r : RpcResponse)
  | sleep (seconds : Nat)
  | ping

/-- Frames produced by the streamed generator for a POST body (server.py lines
192-317): one frame per request; a JSON decode failure yields the fixed
-32700 frame without an id; any exception escaping the dispatch is caught by
the outer handler and yields one -32603 frame without an id. -/
def sse_post_frames (db : String → DbOutcome) (parse : BodyParse) : List SseEvent :=
  match parse with
  | .invalid _ => [.data (rpcFailure none (-32700) "Parse error: Invalid JSON")]
  | .parsed body =>
      match sse_dispatch db body with
      | .ok r => [.data r]
      | .error e => [.data (rpcFailure none (-32603) ("Internal error: " ++ e))]

/-- Keep-alive tail of the bare-GET stream: each iteration awaits one second
and then yields a ping comment frame (server.py lines 337-339). -/
def pingLoop : Nat → List SseEvent
  | 0 => []
  | n + 1 => SseEvent.sleep 1 :: SseEvent.ping :: pingLoop n

/-- Frames produced by the streamed generator for a bodyless GET request
(server.py lines 319-339): one capabilities frame, then three pings one
second apart, then the stream ends. -/
def sse_get_frames : List SseEvent :=
  SseEvent.data capabilitiesResponse :: pingLoop 3

/-- Embeds the method dispatch of the unary transport (server.py lines 365-439).
The if/elif chain has no branch for unknown methods, so the function can
fall through and return Python None, modeled as Except.ok none. -/
def http_dispatch (db : String → DbOutcome) (body : Json) : Except String (Option RpcResponse) :=
  match body with
  | .obj fields =>
      let methodJ := dictGet fields "method" (Json.str "")
      let paramsJ := dictGet fields "params" (Json.obj [])
      let msg_id := dictGet fields "id" (Json.num 1)
      if methodJ.isStr "initialize" then
        Except.ok (some (rpcSuccess msg_id (.json httpInitResult)))
      else if methodJ.isStr "tools/list" then
        Except.ok (some (rpcSuccess msg_id (.json toolsListResult)))
      else if methodJ.isStr "resources/list" then
        Except.ok (some (rpcSuccess msg_id (.json resourcesListResult)))
      else if methodJ.isStr "prompts/list" then
        Except.ok (some (rpcSuccess msg_id (.json promptsListResult)))
      else if methodJ.isStr "tools/call" then
        match paramsJ.getOr "name" (Json.str "") with
        | .error e => .error e
        | .ok tool_nameJ =>
          match paramsJ.getOr "arguments" (Json.obj []) with
          | .error e => .error e
          | .ok argumentsJ =>
            match run_tool describeTableQueryHTTP db tool_nameJ argumentsJ with
            | .error e => .error e
            | .ok tr => Except.ok (some (rpcSuccess msg_id (.toolContent tr)))
      else
        Except.ok none
  | other =>
      Except.error ("\x27" ++ other.pyTypeName ++ "\x27 object has no attribute \x27get\x27")

/-- Unary HTTP reply: a 200 JSON response, a 500 JSON response from the
exception handler, or the implicit None return of the fall-through path. -/
inductive HttpReply where
  | ok (r : RpcResponse)
  | fail500 (r : RpcResponse)
  | noneReply

/-- Error object carried by a unary reply, when any. -/
def HttpReply.rpcError? : HttpReply → Option RpcError
  | .ok r => r.error?
  | .fail500 r => r.error?
  | .noneReply => none

/-- Embeds the unary transport handler (server.py lines 363-449): decode the
body, dispatch, and convert any exception, including a JSON decode failure,
into a -32603 failure with HTTP status 500 and the exception text as message. -/
def mcp_http (db : String → DbOutcome) (parse : BodyParse) : HttpReply :=
  match parse with
  | .invalid msg => .fail500 (rpcFailure none (-32603) msg)
  | .parsed body =>
      match http_dispatch db body with
      | .ok (some r) => .ok r
      | .ok none => .noneReply
      | .error e => .fail500 (rpcFailure none (-32603) e)

/-- HTTP method of the inbound request to the /mcp endpoint. -/
inductive HttpMethod where
  | get
  | post
  | options
deriving DecidableEq, BEq

/-- Reply of the /mcp endpoint: a CORS short-circuit, a stream of SSE events,
or a unary JSON reply. -/
inductive EndpointReply where
  | options200
  | stream (frames : List SseEvent)
  | unary (r : HttpReply)

/-- Substring test used for the Accept header check. -/
def strContains (s sub : String) : Bool :=
  decide (List.IsInfix sub.data s.data)

/-- Embeds the transport selection of mcp_endpoint (server.py lines 165-449):
OPTIONS short-circuits; otherwise the request streams when the Accept header
mentions text/event-stream or the method is GET, and the streamed generator
reads the body only for POST; every other request is served unary. -/
def mcp_endpoint (db : String → DbOutcome) (meth : HttpMethod) (accept : String)
    (parse : BodyParse) : EndpointReply :=
  match meth with
  | .options => .options200
  | _ =>
      let prefer_sse := strContains accept "text/event-stream" || (meth == HttpMethod.get)
      if prefer_sse then
        .stream (match meth with
          | .post => sse_post_frames db parse
          | _ => sse_get_frames)
      else
        .unary (mcp_http db parse)

/-- Id the server associates with a decoded envelope: the id field when
present, else the integer 1. -/
def envId (fields : List (String × Json)) : Json :=
  dictGet fields "id" (Json.num 1)

/-- Well-formedness of a decoded envelope beyond being a JSON object: its
params value (after defaulting) is an object, and so is the arguments value
inside params. This is the mapping shape the spec gives RpcEnvelope. -/
def WfEnvelope (fields : List (String × Json)) : Prop :=
  ∃ pfields, dictGet fields "params" (Json.obj []) = Json.obj pfields ∧
    ∃ afields, dictGet pfields "arguments" (Json.obj []) = Json.obj afields

/-- Substring relation on strings, at the level of their character data. -/
def ContainsStr (s sub : String) : Prop :=
  List.IsInfix sub.data s.data

instance containsStrDecidable (s sub : String) : Decidable (ContainsStr s sub) :=
  List.decidableInfix sub.data s.data

/-- Shape discipline of a ToolResult: the error field excludes both data and
message, and data and message exclude each other. -/
def ToolResult.wellShaped (tr : ToolResult) : Bool :=
  (!tr.error.isSome || (!tr.data.isSome && !tr.message.isSome)) &&
    !(tr.data.isSome && tr.message.isSome)

/-- Read-like classification as the spec words it: ignoring leading and trailing
whitespace and case, the statement begins with one of the keywords SELECT,
WITH, SHOW, DESCRIBE. Stated with the list-prefix relation so that it is a
formulation independent of the startswith chain in the code. -/
def SpecReadLike (q : String) : Prop :=
  ∃ kw ∈ ["SELECT", "WITH", "SHOW", "DESCRIBE"], kw.data <+: (pyUpper (pyStrip q)).data

/-- Concrete database oracle used by witnesses: every statement succeeds with
one table_name column and two rows. -/
def dbDemo : String → DbOutcome :=
  fun _ => DbOutcome.ok (some ["table_name"]) [[Json.str "a"], [Json.str "b"]] (-1)

/-- Concrete database oracle used by witnesses: every statement raises after
the connection was opened. -/
def dbFailing : String → DbOutcome :=
  fun _ => DbOutcome.execFail "connection refused"

/-! Helper lemmas shared by several claims. -/

theorem isInfix_append_right {α : Type} {l₁ l₂ : List α} (h : l₁ <:+: l₂) (l₃ : List α) :
    l₁ <:+: l₂ ++ l₃ :=
  h.trans (List.prefix_append l₂ l₃).isInfix

theorem isInfix_append_left {α : Type} {l₁ l₂ : List α} (h : l₁ <:+: l₂) (l₃ : List α) :
    l₁ <:+: l₃ ++ l₂ :=
  h.trans (List.suffix_append l₃ l₂).isInfix

/-- On the streamed transport, an envelope whose method is a string matching
none of the five known methods is answered with one -32601 frame echoing the
envelope id. -/
theorem sse_unknown_method (fields : List (String × Json)) (m : String) (db : String → DbOutcome)
    (hm : dictGet fields "method" (Json.str "") = Json.str m)
    (h1 : m ≠ "initialize") (h2 : m ≠ "tools/list") (h3 : m ≠ "resources/list")
    (h4 : m ≠ "prompts/list") (h5 : m ≠ "tools/call") :
    sse_post_frames db (.parsed (.obj fields)) =
      [SseEvent.data (rpcFailure (some (envId fields)) (-32601) ("Method not found: " ++ m))] := by
  simp [sse_post_frames, sse_dispatch, hm, Json.isStr, h1, h2, h3, h4, h5, envId, pyStr]

/-- On the unary transport, an envelope whose method is a string matching none
of the five known methods falls through the if/elif chain: the handler
returns None rather than any RPC response. -/
theorem http_unknown_method (fields : List (String × Json)) (m : String) (db : String → DbOutcome)
    (hm : dictGet fields "method" (Json.str "") = Json.str m)
    (h1 : m ≠ "initialize") (h2 : m ≠ "tools/list") (h3 : m ≠ "resources/list")
    (h4 : m ≠ "prompts/list") (h5 : m ≠ "tools/call") :
    mcp_http db (.parsed (.obj fields)) = HttpReply.noneReply := by
  simp [mcp_http, http_dispatch, hm, Json.isStr, h1, h2, h3, h4, h5]

/-- C1 counterexample: the claim promises a -32601 failure on both transports,
but on the unary transport the envelope with method nonexistent produces no
RPC error object at all; the handler falls through and returns None. -/
theorem claim_C1_counterexample :
    mcp_http dbDemo (.parsed (Json.obj [("method", Json.str "nonexistent"), ("id", Json.num 7)])) =
      HttpReply.noneReply ∧
    HttpReply.rpcError?
      (mcp_http dbDemo (.parsed (Json.obj [("method", Json.str "nonexistent"), ("id", Json.num 7)]))) =
      none :=
  ⟨rfl, rfl⟩

/-- C1 (amended): for every parseable envelope whose method is a string other
than the five known methods, the streamed transport returns one failure
frame with code -32601 and message "Method not found: " followed by the
method name, echoing the envelope id; the unary transport has no branch for
unknown methods and returns no RPC response. -/
theorem claim_C1_method_not_found (fields : List (String × Json)) (m : String)
    (db : String → DbOutcome)
    (hm : dictGet fields "method" (Json.str "") = Json.str m)
    (hnot : m ∉ ["initialize", "tools/list", "resources/list", "prompts/list", "tools/call"]) :
    sse_post_frames db (.parsed (.obj fields)) =
      [SseEvent.data (rpcFailure (some (envId fields)) (-32601) ("Method not found: " ++ m))] ∧
    mcp_http db (.parsed (.obj fields)) = HttpReply.noneReply := by
  simp only [List.mem_cons, List.not_mem_nil, or_false, not_or] at hnot
  obtain ⟨h1, h2, h3, h4, h5⟩ := hnot
  exact ⟨sse_unknown_method fields m db hm h1 h2 h3 h4 h5,
    http_unknown_method fields m db hm h1 h2 h3 h4 h5⟩

/-- C1 witness: the amended claim evaluated at method nonexistent with id 7. -/
theorem claim_C1_witness :
    sse_post_frames dbDemo
        (.parsed (Json.obj [("method", Json.str "nonexistent"), ("id", Json.num 7)])) =
      [SseEvent.data (rpcFailure (some (envId [("method", Json.str "nonexistent"), ("id", Json.num 7)]))
        (-32601) ("Method not found: " ++ "nonexistent"))] ∧
    mcp_http dbDemo (.parsed (Json.obj [("method", Json.str "nonexistent"), ("id", Json.num 7)])) =
      HttpReply.noneReply :=
  claim_C1_method_not_found _ "nonexistent" dbDemo rfl (by decide)

/-- C10: a POST body that decodes to an object without a method key is treated
by the streamed transport as carrying the empty method: it is answered with
one -32601 frame whose message is exactly "Method not found: " and whose id
is the envelope id (default 1); no parse error is reported and no exception
escapes. -/
theorem claim_C10_missing_method (fields : List (String × Json)) (db : String → DbOutcome)
    (h : fields.find? (fun p => p.1 == "method") = none) :
    sse_post_frames db (.parsed (.obj fields)) =
      [SseEvent.data (rpcFailure (some (envId fields)) (-32601) "Method not found: ")] := by
  have hm : dictGet fields "method" (Json.str "") = Json.str "" := by
    simp [dictGet, h]
  have hfull := sse_unknown_method fields "" db hm (by decide) (by decide) (by decide)
    (by decide) (by decide)
  rw [show ("Method not found: " ++ "" : String) = "Method not found: " from rfl] at hfull
  exact hfull

/-- C10 witness: a body carrying only an id. -/
theorem claim_C10_witness :
    sse_post_frames dbDemo (.parsed (Json.obj [("id", Json.num 2)])) =
      [SseEvent.data (rpcFailure (some (envId [("id", Json.num 2)])) (-32601) "Method not found: ")] :=
  claim_C10_missing_method _ dbDemo rfl

/-- C2 counterexample: a body that fails to decode is answered on the unary
transport by the generic exception handler with code -32603 and the decode
exception text, not by the -32700 parse error the claim promises. -/
theorem claim_C2_counterexample :
    mcp_http dbDemo (.invalid "Expecting value: line 1 column 1 (char 0)") =
      HttpReply.fail500 (rpcFailure none (-32603) "Expecting value: line 1 column 1 (char 0)") ∧
    HttpReply.rpcError? (mcp_http dbDemo (.invalid "Expecting value: line 1 column 1 (char 0)")) ≠
      some { code := -32700, message := "Parse error: Invalid JSON" } :=
  ⟨rfl, by decide⟩

/-- C2 (amended): a request body that cannot be decoded as JSON yields, on the
streamed transport, one failure frame with code -32700 and message
"Parse error: Invalid JSON" and no id; on the unary transport the decode
exception reaches the generic handler, which replies with HTTP status 500,
code -32603 and the exception text as the message. -/
theorem claim_C2_parse_error (msg : String) (db : String → DbOutcome) :
    sse_post_frames db (.invalid msg) =
      [SseEvent.data (rpcFailure none (-32700) "Parse error: Invalid JSON")] ∧
    mcp_http db (.invalid msg) = HttpReply.fail500 (rpcFailure none (-32603) msg) :=
  ⟨rfl, rfl⟩

/-- C8: a GET request to /mcp is served as a stream whose events are exactly
one capabilities frame carrying no id, then three ping comment frames each
preceded by a one-second delay, after which the stream ends. -/
theorem claim_C8_get_stream (db : String → DbOutcome) (accept : String) (parse : BodyParse) :
    mcp_endpoint db .get accept parse = .stream sse_get_frames ∧
    sse_get_frames =
      [SseEvent.data capabilitiesResponse, .sleep 1, .ping, .sleep 1, .ping, .sleep 1, .ping] ∧
    capabilitiesResponse.id? = none := by
  refine ⟨?_, rfl, rfl⟩
  simp only [mcp_endpoint]
  have hbeq : (HttpMethod.get == HttpMethod.get) = true := rfl
  rw [hbeq, Bool.or_true, if_pos rfl]

/-- C9: every ToolResult built by execute_query, and every ToolResult the tool
dispatch can deliver (including the unknown-tool branch), populates the
error field only when neither data nor message is populated, and never
populates data and message together. -/
theorem claim_C9_exclusive_shapes :
    (∀ (db : String → DbOutcome) (q : String), ((execute_query db q).fst).wellShaped = true) ∧
    (∀ (describeQuery : String → String) (db : String → DbOutcome) (tool_name arguments : Json)
      (tr : ToolResult), run_tool describeQuery db tool_name arguments = Except.ok tr →
        tr.wellShaped = true) := by
  have hq : ∀ (db : String → DbOutcome) (q : String),
      ((execute_query db q).fst).wellShaped = true := by
    intro db q
    unfold execute_query
    cases db q with
    | connectFail msg => rfl
    | execFail msg => rfl
    | ok c r n => by_cases h : isReadLike q <;> simp [h, ToolResult.wellShaped]
  refine ⟨hq, ?_⟩
  intro dq db tn args tr h
  unfold run_tool at h
  split at h
  · injection h with h2
    rw [← h2]
    exact hq db listTablesQuery
  · split at h
    · split at h
      · exact Except.noConfusion h
      · injection h with h2
        rw [← h2]
        exact hq db _
    · split at h
      · split at h
        · exact Except.noConfusion h
        · injection h with h2
          rw [← h2]
          exact hq db _
      · injection h with h2
        rw [← h2]
        rfl

/-- C9 witness: the shape invariant evaluated on the unknown-tool result. -/
theorem claim_C9_witness :
    ToolResult.wellShaped { success := false, error := some ("Unknown tool: " ++ "bogus") } = true :=
  claim_C9_exclusive_shapes.2 describeTableQueryHTTP dbDemo (Json.str "bogus") (Json.obj [])
    { success := false, error := some ("Unknown tool: " ++ "bogus") } rfl

/-- On both transports, a tools/call envelope whose params value is an object
delivers whatever ToolResult the tool chain produces inside a success
envelope echoing the envelope id. -/
theorem tools_call_envelope (fields pfields : List (String × Json)) (db : String → DbOutcome)
    (hm : dictGet fields "method" (Json.str "") = Json.str "tools/call")
    (hp : dictGet fields "params" (Json.obj []) = Json.obj pfields)
    (tr trH : ToolResult)
    (hrunS : run_tool describeTableQuerySSE db (dictGet pfields "name" (Json.str ""))
        (dictGet pfields "arguments" (Json.obj [])) = Except.ok tr)
    (hrunH : run_tool describeTableQueryHTTP db (dictGet pfields "name" (Json.str ""))
        (dictGet pfields "arguments" (Json.obj [])) = Except.ok trH) :
    sse_post_frames db (.parsed (.obj fields)) =
      [SseEvent.data (rpcSuccess (envId fields) (.toolContent tr))] ∧
    mcp_http db (.parsed (.obj fields)) =
      HttpReply.ok (rpcSuccess (envId fields) (.toolContent trH)) := by
  constructor
  · simp [sse_post_frames, sse_dispatch, hm, hp, Json.isStr, Json.getOr, hrunS, envId]
  · simp [mcp_http, http_dispatch, hm, hp, Json.isStr, Json.getOr, hrunH, envId]

/-- C4: for a tools/call envelope naming any cataloged tool, when every query
the executor runs raises, the tool chain returns the failed ToolResult with
the fault message instead of propagating the exception, and both transports
still deliver it inside an RPC-level success envelope. -/
theorem claim_C4_fault_absorbed (fields pfields afields : List (String × Json))
    (name msg : String) (db : String → DbOutcome)
    (hm : dictGet fields "method" (Json.str "") = Json.str "tools/call")
    (hp : dictGet fields "params" (Json.obj []) = Json.obj pfields)
    (hn : dictGet pfields "name" (Json.str "") = Json.str name)
    (ha : dictGet pfields "arguments" (Json.obj []) = Json.obj afields)
    (hknown : name ∈ catalogToolNames)
    (hfail : ∀ q, db q = DbOutcome.execFail msg) :
    (∀ describeQuery, run_tool describeQuery db (Json.str name) (Json.obj afields) =
      Except.ok { success := false, error := some msg }) ∧
    sse_post_frames db (.parsed (.obj fields)) =
      [SseEvent.data (rpcSuccess (envId fields)
        (.toolContent { success := false, error := some msg }))] ∧
    mcp_http db (.parsed (.obj fields)) =
      HttpReply.ok (rpcSuccess (envId fields)
        (.toolContent { success := false, error := some msg })) := by
  have hrun : ∀ describeQuery, run_tool describeQuery db (Json.str name) (Json.obj afields) =
      Except.ok { success := false, error := some msg } := by
    intro dq
    have hcases : name = "postgres_query" ∨ name = "postgres_list_tables" ∨
        name = "postgres_describe_table" := by
      rw [show catalogToolNames =
        ["postgres_query", "postgres_list_tables", "postgres_describe_table"] from rfl] at hknown
      simpa using hknown
    rcases hcases with h | h | h <;> subst h <;>
      simp [run_tool, Json.isStr, Json.getOr, execute_query, hfail]
  have hrunS : run_tool describeTableQuerySSE db (dictGet pfields "name" (Json.str ""))
      (dictGet pfields "arguments" (Json.obj [])) =
      Except.ok { success := false, error := some msg } := by
    rw [hn, ha]; exact hrun _
  have hrunH : run_tool describeTableQueryHTTP db (dictGet pfields "name" (Json.str ""))
      (dictGet pfields "arguments" (Json.obj [])) =
      Except.ok { success := false, error := some msg } := by
    rw [hn, ha]; exact hrun _
  have henv := tools_call_envelope fields pfields db hm hp _ _ hrunS hrunH
  exact ⟨hrun, henv.1, henv.2⟩

/-- C4 witness: the fault absorption evaluated for postgres_query over a
database whose every statement raises after connecting. -/
theorem claim_C4_witness :
    (∀ describeQuery, run_tool describeQuery dbFailing (Json.str "postgres_query")
        (Json.obj [("query", Json.str "SELECT 1")]) =
      Except.ok { success := false, error := some "connection refused" }) ∧
    sse_post_frames dbFailing (.parsed (Json.obj [("method", Json.str "tools/call"),
        ("params", Json.obj [("name", Json.str "postgres_query"),
          ("arguments", Json.obj [("query", Json.str "SELECT 1")])])])) =
      [SseEvent.data (rpcSuccess (envId [("method", Json.str "tools/call"),
        ("params", Json.obj [("name", Json.str "postgres_query"),
          ("arguments", Json.obj [("query", Json.str "SELECT 1")])])])
        (.toolContent { success := false, error := some "connection refused" }))] ∧
    mcp_http dbFailing (.parsed (Json.obj [("method", Json.str "tools/call"),
        ("params", Json.obj [("name", Json.str "postgres_query"),
          ("arguments", Json.obj [("query", Json.str "SELECT 1")])])])) =
      HttpReply.ok (rpcSuccess (envId [("method", Json.str "tools/call"),
        ("params", Json.obj [("name", Json.str "postgres_query"),
          ("arguments", Json.obj [("query", Json.str "SELECT 1")])])])
        (.toolContent { success := false, error := some "connection refused" })) :=
  claim_C4_fault_absorbed _ _ [("query", Json.str "SELECT 1")] "postgres_query"
    "connection refused" dbFailing rfl rfl rfl rfl (by decide) (fun _ => rfl)

/-- C5: a tools/call envelope whose tool name is a string outside the three
cataloged names yields the ToolResult success false with error
"Unknown tool: " followed by the name, delivered inside an RPC-level
success envelope (error field none) on both transports. -/
theorem claim_C5_unknown_tool (fields pfields : List (String × Json)) (name : String)
    (db : String → DbOutcome)
    (hm : dictGet fields "method" (Json.str "") = Json.str "tools/call")
    (hp : dictGet fields "params" (Json.obj []) = Json.obj pfields)
    (hn : dictGet pfields "name" (Json.str "") = Json.str name)
    (hnot : name ∉ catalogToolNames) :
    (∀ describeQuery arguments, run_tool describeQuery db (Json.str name) arguments =
      Except.ok { success := false, error := some ("Unknown tool: " ++ name) }) ∧
    sse_post_frames db (.parsed (.obj fields)) =
      [SseEvent.data (rpcSuccess (envId fields)
        (.toolContent { success := false, error := some ("Unknown tool: " ++ name) }))] ∧
    (rpcSuccess (envId fields)
      (.toolContent { success := false, error := some ("Unknown tool: " ++ name) })).error? = none ∧
    mcp_http db (.parsed (.obj fields)) =
      HttpReply.ok (rpcSuccess (envId fields)
        (.toolContent { success := false, error := some ("Unknown tool: " ++ name) })) := by
  simp only [catalogToolNames] at hnot
  rw [show MCP_TOOLS.filterMap (fun t => t.getStrField "name") =
    ["postgres_query", "postgres_list_tables", "postgres_describe_table"] from rfl] at hnot
  simp only [List.mem_cons, List.not_mem_nil, or_false, not_or] at hnot
  obtain ⟨h1, h2, h3⟩ := hnot
  have hrun : ∀ describeQuery arguments, run_tool describeQuery db (Json.str name) arguments =
      Except.ok { success := false, error := some ("Unknown tool: " ++ name) } := by
    intro dq arguments
    simp [run_tool, Json.isStr, h1, h2, h3, pyStr]
  have hrunS := hrun describeTableQuerySSE (dictGet pfields "arguments" (Json.obj []))
  have hrunH := hrun describeTableQueryHTTP (dictGet pfields "arguments" (Json.obj []))
  rw [← hn] at hrunS hrunH
  have henv := tools_call_envelope fields pfields db hm hp _ _ hrunS hrunH
  exact ⟨hrun, henv.1, rfl, henv.2⟩

/-- C5 witness: the unknown-tool outcome evaluated at the tool name
does_not_exist with a string envelope id, echoed verbatim. -/
theorem claim_C5_witness :
    (∀ describeQuery arguments, run_tool describeQuery dbDemo (Json.str "does_not_exist") arguments =
      Except.ok { success := false, error := some ("Unknown tool: " ++ "does_not_exist") }) ∧
    sse_post_frames dbDemo (.parsed (Json.obj [("method", Json.str "tools/call"),
        ("id", Json.str "abc"),
        ("params", Json.obj [("name", Json.str "does_not_exist")])])) =
      [SseEvent.data (rpcSuccess (envId [("method", Json.str "tools/call"),
        ("id", Json.str "abc"),
        ("params", Json.obj [("name", Json.str "does_not_exist")])])
        (.toolContent { success := false, error := some ("Unknown tool: " ++ "does_not_exist") }))] ∧
    (rpcSuccess (envId [("method", Json.str "tools/call"), ("id", Json.str "abc"),
        ("params", Json.obj [("name", Json.str "does_not_exist")])])
      (.toolContent
        { success := false, error := some ("Unknown tool: " ++ "does_not_exist") })).error? =
      none ∧
    mcp_http dbDemo (.parsed (Json.obj [("method", Json.str "tools/call"),
        ("id", Json.str "abc"),
        ("params", Json.obj [("name", Json.str "does_not_exist")])])) =
      HttpReply.ok (rpcSuccess (envId [("method", Json.str "tools/call"),
        ("id", Json.str "abc"),
        ("params", Json.obj [("name", Json.str "does_not_exist")])])
        (.toolContent { success := false, error := some ("Unknown tool: " ++ "does_not_exist") })) :=
  claim_C5_unknown_tool _ _ "does_not_exist" dbDemo rfl rfl rfl (by decide)

/-- The startswith chain of the code agrees with the keyword-prefix wording of
the spec. -/
theorem isReadLike_iff (q : String) : isReadLike q = true ↔ SpecReadLike q := by
  simp [isReadLike, SpecReadLike, pyStartsWith, List.isPrefixOf_iff_prefix]
  tauto

/-- C6: execute_query classifies a statement as read-like exactly when its
text, stripped of surrounding whitespace and uppercased, begins with
SELECT, WITH, SHOW or DESCRIBE; on a successful read-like statement it
returns success true with the rows (as column-name/value pairs) and their
count, touching no transaction; on a successful write-like statement it
returns success true with the affected-row message and count after a
commit. -/
theorem claim_C6_classification (db : String → DbOutcome) (q : String)
    (columns : Option (List String)) (rows : List (List Json)) (rowcount : Int)
    (h : db q = DbOutcome.ok columns rows rowcount) :
    (∀ s, isReadLike s = true ↔ SpecReadLike s) ∧
    (isReadLike q = true →
      execute_query db q =
        ({ success := true,
           data := some (rows.map (fun row => (columns.getD []).zip row)),
           row_count := some rows.length }, TxAction.skip)) ∧
    (isReadLike q = false →
      execute_query db q =
        ({ success := true,
           message := some ("Query executed successfully. Rows affected: " ++ toString rowcount),
           affected_rows := some rowcount }, TxAction.commit)) := by
  refine ⟨isReadLike_iff, ?_, ?_⟩
  · intro hr
    simp [execute_query, h, hr]
  · intro hr
    simp [execute_query, h, hr]

/-- C6 witness: the classification evaluated on a leading-whitespace SELECT
and on a DELETE statement over a concrete database oracle. -/
theorem claim_C6_witness :
    (isReadLike "  select * from t" = true ↔ SpecReadLike "  select * from t") ∧
    execute_query dbDemo "DELETE FROM t" =
      ({ success := true,
         message := some ("Query executed successfully. Rows affected: " ++ toString (-1 : Int)),
         affected_rows := some (-1) }, TxAction.commit) :=
  ⟨(claim_C6_classification dbDemo "  select * from t" (some ["table_name"])
      [[Json.str "a"], [Json.str "b"]] (-1) rfl).1 _,
   (claim_C6_classification dbDemo "DELETE FROM t" (some ["table_name"])
      [[Json.str "a"], [Json.str "b"]] (-1) rfl).2.2 (by decide)⟩

/-- With a dict of arguments, the tool chain never raises: every branch,
including the unknown-tool branch, returns a ToolResult. -/
theorem run_tool_obj_isOk (describeQuery : String → String) (db : String → DbOutcome)
    (tool_name : Json) (afields : List (String × Json)) :
    ∃ tr, run_tool describeQuery db tool_name (Json.obj afields) = Except.ok tr := by
  by_cases h1 : tool_name.isStr "postgres_list_tables"
  · exact ⟨(execute_query db listTablesQuery).fst, by simp [run_tool, h1]⟩
  by_cases h2 : tool_name.isStr "postgres_describe_table"
  · exact ⟨(execute_query db
        (describeQuery (pyStr (dictGet afields "table_name" (Json.str ""))))).fst,
      by simp [run_tool, h1, h2, Json.getOr]⟩
  by_cases h3 : tool_name.isStr "postgres_query"
  · exact ⟨(execute_query db (pyStr (dictGet afields "query" (Json.str "")))).fst,
      by simp [run_tool, h1, h2, h3, Json.getOr]⟩
  · exact ⟨{ success := false, error := some ("Unknown tool: " ++ pyStr tool_name) },
      by simp [run_tool, h1, h2, h3]⟩

/-- Under the envelope shape the spec declares, the streamed dispatch always
yields one response, and that response echoes the envelope id. -/
theorem sse_dispatch_id (fields pfields afields : List (String × Json)) (db : String → DbOutcome)
    (hp : dictGet fields "params" (Json.obj []) = Json.obj pfields)
    (ha : dictGet pfields "arguments" (Json.obj []) = Json.obj afields) :
    ∃ r, sse_dispatch db (.obj fields) = Except.ok r ∧ r.id? = some (envId fields) := by
  by_cases c1 : (dictGet fields "method" (Json.str "")).isStr "initialize"
  · exact ⟨rpcSuccess (envId fields) (.json sseInitResult), by simp [sse_dispatch, c1, envId], rfl⟩
  by_cases c2 : (dictGet fields "method" (Json.str "")).isStr "tools/list"
  · exact ⟨rpcSuccess (envId fields) (.json toolsListResult),
      by simp [sse_dispatch, c1, c2, envId], rfl⟩
  by_cases c3 : (dictGet fields "method" (Json.str "")).isStr "resources/list"
  · exact ⟨rpcSuccess (envId fields) (.json resourcesListResult),
      by simp [sse_dispatch, c1, c2, c3, envId], rfl⟩
  by_cases c4 : (dictGet fields "method" (Json.str "")).isStr "prompts/list"
  · exact ⟨rpcSuccess (envId fields) (.json promptsListResult),
      by simp [sse_dispatch, c1, c2, c3, c4, envId], rfl⟩
  by_cases c5 : (dictGet fields "method" (Json.str "")).isStr "tools/call"
  · obtain ⟨tr, htr⟩ :=
      run_tool_obj_isOk describeTableQuerySSE db (dictGet pfields "name" (Json.str "")) afields
    refine ⟨rpcSuccess (envId fields) (.toolContent tr), ?_, rfl⟩
    simp [sse_dispatch, c1, c2, c3, c4, c5, hp, Json.getOr, ha, htr, envId]
  · exact ⟨rpcFailure (some (envId fields)) (-32601)
        ("Method not found: " ++ pyStr (dictGet fields "method" (Json.str ""))),
      by simp [sse_dispatch, c1, c2, c3, c4, c5, envId], rfl⟩

/-- Under the same envelope shape, the unary dispatch either falls through
(unknown method) or yields a response echoing the envelope id; it never
raises. -/
theorem http_dispatch_id (fields pfields afields : List (String × Json)) (db : String → DbOutcome)
    (hp : dictGet fields "params" (Json.obj []) = Json.obj pfields)
    (ha : dictGet pfields "arguments" (Json.obj []) = Json.obj afields) :
    http_dispatch db (.obj fields) = Except.ok none ∨
    ∃ r, http_dispatch db (.obj fields) = Except.ok (some r) ∧ r.id? = some (envId fields) := by
  by_cases c1 : (dictGet fields "method" (Json.str "")).isStr "initialize"
  · exact .inr ⟨rpcSuccess (envId fields) (.json httpInitResult),
      by simp [http_dispatch, c1, envId], rfl⟩
  by_cases c2 : (dictGet fields "method" (Json.str "")).isStr "tools/list"
  · exact .inr ⟨rpcSuccess (envId fields) (.json toolsListResult),
      by simp [http_dispatch, c1, c2, envId], rfl⟩
  by_cases c3 : (dictGet fields "method" (Json.str "")).isStr "resources/list"
  · exact .inr ⟨rpcSuccess (envId fields) (.json resourcesListResult),
      by simp [http_dispatch, c1, c2, c3, envId], rfl⟩
  by_cases c4 : (dictGet fields "method" (Json.str "")).isStr "prompts/list"
  · exact .inr ⟨rpcSuccess (envId fields) (.json promptsListResult),
      by simp [http_dispatch, c1, c2, c3, c4, envId], rfl⟩
  by_cases c5 : (dictGet fields "method" (Json.str "")).isStr "tools/call"
  · obtain ⟨tr, htr⟩ :=
      run_tool_obj_isOk describeTableQueryHTTP db (dictGet pfields "name" (Json.str "")) afields
    refine .inr ⟨rpcSuccess (envId fields) (.toolContent tr), ?_, rfl⟩
    simp [http_dispatch, c1, c2, c3, c4, c5, hp, Json.getOr, ha, htr, envId]
  · exact .inl (by simp [http_dispatch, c1, c2, c3, c4, c5])

/-- C7: for every envelope of the declared shape (params a mapping, and its
arguments a mapping), every response either transport produces carries the
id the envelope carried, the unary transport never reaches its exception
path, and a missing id field defaults to the integer 1. -/
theorem claim_C7_id_echo (fields : List (String × Json)) (db : String → DbOutcome)
    (hwf : WfEnvelope fields) :
    (∀ r, SseEvent.data r ∈ sse_post_frames db (.parsed (.obj fields)) →
      r.id? = some (envId fields)) ∧
    (∀ r, mcp_http db (.parsed (.obj fields)) = HttpReply.ok r →
      r.id? = some (envId fields)) ∧
    (∀ r, mcp_http db (.parsed (.obj fields)) ≠ HttpReply.fail500 r) ∧
    ((fields.find? (fun p => p.1 == "id")) = none → envId fields = Json.num 1) := by
  obtain ⟨pfields, hp, afields, ha⟩ := hwf
  obtain ⟨r0, hdisp, hid⟩ := sse_dispatch_id fields pfields afields db hp ha
  have hframes : sse_post_frames db (.parsed (.obj fields)) = [SseEvent.data r0] := by
    simp [sse_post_frames, hdisp]
  refine ⟨?_, ?_, ?_, ?_⟩
  · intro r hr
    rw [hframes] at hr
    simp only [List.mem_singleton] at hr
    cases hr
    exact hid
  · intro r hr
    rcases http_dispatch_id fields pfields afields db hp ha with hnone | ⟨r1, hd1, hid1⟩
    · rw [show mcp_http db (.parsed (.obj fields)) = HttpReply.noneReply from
        by simp [mcp_http, hnone]] at hr
      exact HttpReply.noConfusion hr
    · rw [show mcp_http db (.parsed (.obj fields)) = HttpReply.ok r1 from
        by simp [mcp_http, hd1]] at hr
      cases hr
      exact hid1
  · intro r hr
    rcases http_dispatch_id fields pfields afields db hp ha with hnone | ⟨r1, hd1, hid1⟩
    · rw [show mcp_http db (.parsed (.obj fields)) = HttpReply.noneReply from
        by simp [mcp_http, hnone]] at hr
      exact HttpReply.noConfusion hr
    · rw [show mcp_http db (.parsed (.obj fields)) = HttpReply.ok r1 from
        by simp [mcp_http, hd1]] at hr
      exact HttpReply.noConfusion hr
  · intro h
    simp [envId, dictGet, h]

/-- C7 witness: the id-echo property evaluated on a tools/list envelope with
id 42. -/
theorem claim_C7_witness :
    (∀ r, SseEvent.data r ∈
        sse_post_frames dbDemo (.parsed (.obj [("method", Json.str "tools/list"), ("id", Json.num 42)])) →
      r.id? = some (envId [("method", Json.str "tools/list"), ("id", Json.num 42)])) ∧
    (∀ r, mcp_http dbDemo (.parsed (.obj [("method", Json.str "tools/list"), ("id", Json.num 42)])) =
        HttpReply.ok r → r.id? = some (envId [("method", Json.str "tools/list"), ("id", Json.num 42)])) ∧
    (∀ r, mcp_http dbDemo (.parsed (.obj [("method", Json.str "tools/list"), ("id", Json.num 42)])) ≠
      HttpReply.fail500 r) ∧
    (([(("method" : String), Json.str "tools/list"), ("id", Json.num 42)].find?
        (fun p => p.1 == "id")) = none →
      envId [("method", Json.str "tools/list"), ("id", Json.num 42)] = Json.num 1) :=
  claim_C7_id_echo _ dbDemo ⟨[], rfl, [], rfl⟩

/-- A substring occurring inside the constant prefix of an interpolated SQL
template occurs in every instantiation of the template. -/
theorem containsStr_param_left (P t S A sub B : String) (hP : P = A ++ sub ++ B) :
    ContainsStr (P ++ t ++ S) sub := by
  subst hP
  refine ⟨A.data, (B ++ t ++ S).data, ?_⟩
  simp [ContainsStr, String.data_append, List.append_assoc]

/-- A substring occurring inside the constant suffix of an interpolated SQL
template occurs in every instantiation of the template. -/
theorem containsStr_param_right (P t S A sub B : String) (hS : S = A ++ sub ++ B) :
    ContainsStr (P ++ t ++ S) sub := by
  subst hS
  refine ⟨(P ++ t ++ A).data, B.data, ?_⟩
  simp [ContainsStr, String.data_append, List.append_assoc]

/-- The interpolation site of an SQL template, together with its constant
neighbourhood, occurs in every instantiation of the template. -/
theorem containsStr_param_span (P t S A B w1 w2 : String)
    (hP : P = A ++ w1) (hS : S = w2 ++ B) :
    ContainsStr (P ++ t ++ S) (w1 ++ t ++ w2) := by
  subst hP
  subst hS
  refine ⟨A.data, B.data, ?_⟩
  simp [ContainsStr, String.data_append, List.append_assoc]

/-- C3 counterexample: the SQL string the unary transport issues to the query
executor for postgres_describe_table does not mention column_default, so it
does not select the column default the claim promises on both transports. -/
theorem claim_C3_counterexample :
    ¬ ContainsStr (describeTableQueryHTTP "users") "column_default" ∧
    run_tool describeTableQueryHTTP dbDemo (Json.str "postgres_describe_table")
        (Json.obj [("table_name", Json.str "users")]) =
      Except.ok (execute_query dbDemo (describeTableQueryHTTP "users")).fst :=
  ⟨by decide, rfl⟩

/-- C3 (amended): for a tools/call describe-table invocation whose table_name
argument is the string t, the streamed transport issues exactly
describeTableQuerySSE t, whose text selects column_name, data_type,
is_nullable and column_default, orders by ordinal_position, and filters on
the literal t; the unary transport issues exactly describeTableQueryHTTP t,
whose text selects only column_name, data_type and is_nullable (it never
mentions column_default), with the same ordering and filter. -/
theorem claim_C3_describe_sql (db : String → DbOutcome) (afields : List (String × Json))
    (t : String)
    (ht : dictGet afields "table_name" (Json.str "") = Json.str t) :
    run_tool describeTableQuerySSE db (Json.str "postgres_describe_table") (Json.obj afields) =
      Except.ok (execute_query db (describeTableQuerySSE t)).fst ∧
    run_tool describeTableQueryHTTP db (Json.str "postgres_describe_table") (Json.obj afields) =
      Except.ok (execute_query db (describeTableQueryHTTP t)).fst ∧
    ContainsStr (describeTableQuerySSE t)
      "SELECT column_name, data_type, is_nullable, column_default" ∧
    ContainsStr (describeTableQuerySSE t) "ORDER BY ordinal_position" ∧
    ContainsStr (describeTableQuerySSE t) ("table_name = \x27" ++ t ++ "\x27") ∧
    ContainsStr (describeTableQueryHTTP t)
      "SELECT column_name, data_type, is_nullable FROM" ∧
    ContainsStr (describeTableQueryHTTP t) "ORDER BY ordinal_position" ∧
    ContainsStr (describeTableQueryHTTP t) ("table_name = \x27" ++ t ++ "\x27") ∧
    ¬ ContainsStr (describeTableQueryHTTP "users") "column_default" := by
  refine ⟨?_, ?_, ?_, ?_, ?_, ?_, ?_, ?_, by decide⟩
  · simp [run_tool, Json.isStr, Json.getOr, ht, pyStr]
  · simp [run_tool, Json.isStr, Json.getOr, ht, pyStr]
  · exact containsStr_param_left describePrefixSSE t describeSuffixSSE
      "\n                                    "
      "SELECT column_name, data_type, is_nullable, column_default"
      "\n                                    FROM information_schema.columns\n                                    WHERE table_name = \x27"
      rfl
  · exact containsStr_param_right describePrefixSSE t describeSuffixSSE
      "\x27\n                                    "
      "ORDER BY ordinal_position"
      "\n                                "
      rfl
  · exact containsStr_param_span describePrefixSSE t describeSuffixSSE
      "\n                                    SELECT column_name, data_type, is_nullable, column_default\n                                    FROM information_schema.columns\n                                    WHERE "
      "\n                                    ORDER BY ordinal_position\n                                "
      "table_name = \x27" "\x27" rfl rfl
  · exact containsStr_param_left describePrefixHTTP t describeSuffixHTTP
      ""
      "SELECT column_name, data_type, is_nullable FROM"
      " information_schema.columns WHERE table_name = \x27"
      rfl
  · exact containsStr_param_right describePrefixHTTP t describeSuffixHTTP
      "\x27 "
      "ORDER BY ordinal_position"
      ""
      rfl
  · exact containsStr_param_span describePrefixHTTP t describeSuffixHTTP
      "SELECT column_name, data_type, is_nullable FROM information_schema.columns WHERE "
      " ORDER BY ordinal_position"
      "table_name = \x27" "\x27" rfl rfl

/-- C3 witness: the describe-table dispatch evaluated at the table name users. -/
theorem claim_C3_witness :
    run_tool describeTableQuerySSE dbDemo (Json.str "postgres_describe_table")
        (Json.obj [("table_name", Json.str "users")]) =
      Except.ok (execute_query dbDemo (describeTableQuerySSE "users")).fst ∧
    ContainsStr (describeTableQuerySSE "users") ("table_name = \x27" ++ "users" ++ "\x27") :=
  ⟨(claim_C3_describe_sql dbDemo [("table_name", Json.str "users")] "users" rfl).1,
   (claim_C3_describe_sql dbDemo [("table_name", Json.str "users")] "users" rfl).2.2.2.2.1⟩
